import Mathlib

/-!
Shallow embedding of the startup logic of the aws-custom-route-controller
command (`main.go`).  The program parses command-line flags, installs a
logger, checks required flags, builds a target kubeconfig and a controller
manager, registers a node reconciler with readiness and health checks,
loads AWS credentials, creates an EC2 routes client, parses the pod network
CIDR, creates the custom-routes updater, and finally starts the updater
loop and the manager on a shared signal-handler context.

The embedding models `main` as a function from the parsed command line and
an environment (the results of all external calls) to a trace of events
plus an outcome (process exit with a code, or normal completion of
`mgr.Start`).  Every step of `main.go` is mirrored in order.
-/

namespace ACRC

/-- Duration unit: Go `time.Duration` counts nanoseconds. -/
def nsPerSecond : Nat := 1000000000

/-- Go `time.Minute` in nanoseconds. -/
def nsPerMinute : Nat := 60 * nsPerSecond

/-- Go `time.Hour` in nanoseconds. -/
def nsPerHour : Nat := 60 * nsPerMinute

/-- Modelled from the spec: `updater.InClusterConfig`, the sentinel value of
the control-kubeconfig flag selecting in-cluster configuration (the
`updater` package is not part of the sources; the spec describes the flag as
"control-plane kubeconfig path or an in-cluster default"). -/
def inClusterConfig : String := "inClusterConfig"

/-- Modelled from the spec: `logger.InfoLevel`, the default log level of the
log-level flag; the flag documentation says the level must be one of
[info,debug,error]. -/
def infoLevel : String := "info"

/-- Modelled from the spec: `logger.FormatJSON`, the default log format of
the log-format flag; the flag documentation says the format must be one of
[text,json]. -/
def formatJSON : String := "json"

/-- The name of the lease resource (`leaderElectionId` in `main.go`). -/
def leaderElectionId : String := "aws-custom-route-controller-leader-election"

/-- The component name (`componentName` in `main.go`). -/
def componentName : String := "aws-custom-route-controller"

/-- The values of all registered flags after `pflag.Parse`
(`main.go` lines 41-56). -/
structure Flags where
  clusterName : String
  controlKubeconfig : String
  healthProbePort : Int
  maxDelay : Nat
  metricsPort : Int
  namespaceFlag : String
  podNetworkCidr : String
  region : String
  secretName : String
  syncPeriod : Nat
  targetKubeconfig : String
  tickPeriod : Nat
  leaderElection : Bool
  leaderElectionNamespace : String
  logLevel : String
  logFormat : String
  deriving Repr, DecidableEq

/-- The flag values registered by the `pflag.String` / `pflag.Int` /
`pflag.Duration` / `pflag.Bool` calls of `main.go` lines 41-56: these are
the values the flag pointers hold before `pflag.Parse` runs, and the
defaults used for every flag the command line does not supply. -/
def registeredDefaults : Flags :=
  { clusterName := ""
    controlKubeconfig := inClusterConfig
    healthProbePort := 8081
    maxDelay := 5 * nsPerMinute
    metricsPort := 8080
    namespaceFlag := ""
    podNetworkCidr := ""
    region := ""
    secretName := "cloudprovider"
    syncPeriod := 1 * nsPerHour
    targetKubeconfig := ""
    tickPeriod := 5 * nsPerSecond
    leaderElection := false
    leaderElectionNamespace := "kube-system"
    logLevel := infoLevel
    logFormat := formatJSON }

/-- The command line: for each flag, `some v` when the flag is supplied
with value `v` and `none` when it is omitted. -/
structure Args where
  clusterName : Option String := none
  controlKubeconfig : Option String := none
  healthProbePort : Option Int := none
  maxDelay : Option Nat := none
  metricsPort : Option Int := none
  namespaceFlag : Option String := none
  podNetworkCidr : Option String := none
  region : Option String := none
  secretName : Option String := none
  syncPeriod : Option Nat := none
  targetKubeconfig : Option String := none
  tickPeriod : Option Nat := none
  leaderElection : Option Bool := none
  leaderElectionNamespace : Option String := none
  logLevel : Option String := none
  logFormat : Option String := none
  deriving Repr, DecidableEq

/-- `pflag.Parse`: each flag takes the supplied value when present and
keeps its registered default otherwise. -/
def pflagParse (args : Args) : Flags :=
  { clusterName := args.clusterName.getD registeredDefaults.clusterName
    controlKubeconfig := args.controlKubeconfig.getD registeredDefaults.controlKubeconfig
    healthProbePort := args.healthProbePort.getD registeredDefaults.healthProbePort
    maxDelay := args.maxDelay.getD registeredDefaults.maxDelay
    metricsPort := args.metricsPort.getD registeredDefaults.metricsPort
    namespaceFlag := args.namespaceFlag.getD registeredDefaults.namespaceFlag
    podNetworkCidr := args.podNetworkCidr.getD registeredDefaults.podNetworkCidr
    region := args.region.getD registeredDefaults.region
    secretName := args.secretName.getD registeredDefaults.secretName
    syncPeriod := args.syncPeriod.getD registeredDefaults.syncPeriod
    targetKubeconfig := args.targetKubeconfig.getD registeredDefaults.targetKubeconfig
    tickPeriod := args.tickPeriod.getD registeredDefaults.tickPeriod
    leaderElection := args.leaderElection.getD registeredDefaults.leaderElection
    leaderElectionNamespace := args.leaderElectionNamespace.getD registeredDefaults.leaderElectionNamespace
    logLevel := args.logLevel.getD registeredDefaults.logLevel
    logFormat := args.logFormat.getD registeredDefaults.logFormat }

/-- A Go context: `context.Background` or the context returned by
`signals.SetupSignalHandler`, which is cancelled when the process receives
a shutdown signal (SIGTERM/SIGINT). -/
inductive Ctx where
  | background
  | signalDerived
  deriving Repr, DecidableEq

/-- Whether a context is cancelled by the process-shutdown signal. -/
def Ctx.cancelledOnShutdownSignal : Ctx → Bool
  | .background => false
  | .signalDerived => true

/-- `signals.SetupSignalHandler()` returns a context cancelled on the
process-shutdown signal (`main.go` line 138). -/
def setupSignalHandler : Ctx := Ctx.signalDerived

/-- The health or readiness checker taken from the node reconciler:
`reconciler.ReadyChecker` or `reconciler.HealthzChecker`. -/
inductive Checker where
  | readyChecker
  | healthzChecker
  deriving Repr, DecidableEq

/-- The sync callback handed to `StartUpdater`: `customRoutes.Update`,
where `customRoutes` was created for the given cluster name and pod CIDR
(`main.go` lines 132, 139). -/
inductive SyncCallback where
  | customRoutesUpdate (clusterName : String) (podCIDR : String)
  deriving Repr, DecidableEq

/-- The `manager.Options` built in `main.go` lines 80-89. -/
structure ManagerOptions where
  leaderElection : Bool
  leaderElectionResourceLock : String
  leaderElectionID : String
  leaderElectionNamespace : String
  metricsBindAddress : String
  healthProbeBindAddress : String
  deriving Repr, DecidableEq

/-- Observable steps of `main`, in the order `main.go` performs them. -/
inductive Event where
  | setLogger (level format : String)
  | logInfo (msg : String)
  | usage
  | logError (msg : String)
  | buildTargetConfig (kubeconfigPath : String)
  | newManager (opts : ManagerOptions)
  | newNodeReconciler
  | newController
  | addReadyzCheck (name : String) (checker : Checker)
  | addHealthzCheck (name : String) (checker : Checker)
  | loadCredentials (kubeconfig ns secret : String)
  | newEC2Routes (region : String)
  | getIPv4CIDRCall (cidrs : List String)
  | newCustomRoutes (clusterName : String) (podCIDR : String)
  | startUpdater (ctx : Ctx) (callback : SyncCallback)
      (tickPeriod syncPeriod maxDelay : Nat)
  | managerStart (ctx : Ctx)
  deriving Repr, DecidableEq

/-- An event that builds a client or contacts an external system, or more
generally any startup action beyond logging and usage output: everything
except installing the logger, writing a log line and printing usage. -/
def Event.isExternalAction : Event → Bool
  | .setLogger _ _ => false
  | .logInfo _ => false
  | .usage => false
  | .logError _ => false
  | _ => true

/-- An event reporting a startup failure: a usage message or an error log
line. -/
def Event.isErrorReport : Event → Bool
  | .usage => true
  | .logError _ => true
  | _ => false

/-- Whether the last event of a trace reports a startup failure. -/
def lastIsErrorReport : List Event → Bool
  | [] => false
  | [e] => e.isErrorReport
  | _ :: e :: rest => lastIsErrorReport (e :: rest)

/-- How the modelled `main` ends: `os.Exit(code)` or a normal return. -/
inductive Outcome where
  | exited (code : Nat)
  | completed
  deriving Repr, DecidableEq

/-- Results of the external calls `main` performs; each failing call
carries an error message, mirroring the `err` values of `main.go`. -/
structure Env where
  buildConfigFromFlags : String → Except String Unit
  newManager : Except String Unit
  completeController : Except String Unit
  addReadyzCheck : Except String Unit
  addHealthzCheck : Except String Unit
  loadCredentials : Except String Unit
  newAWSEC2Routes : Except String Unit
  getIPv4CIDR : List String → Except String String
  newCustomRoutes : Except String Unit
  managerStart : Except String Unit

/-- `checkRequiredFlag` (`main.go` lines 146-152): when the value is empty
it logs that the flag is required, prints usage and exits with status 1
(returned here as the `false` component). -/
def checkRequiredFlag (name value : String) : List Event × Bool :=
  if value = "" then
    ([Event.logInfo ("--" ++ name ++ " is required"), Event.usage], false)
  else
    ([], true)

/-- Runs `checkRequiredFlag` on each (name, value) pair in order, stopping
at the first failure, exactly as the sequence of calls in `main.go` lines
68-73 does (the first failing check calls `os.Exit`). -/
def runChecks : List (String × String) → List Event × Bool
  | [] => ([], true)
  | (n, v) :: rest =>
      match checkRequiredFlag n v with
      | (evs, true) =>
          let r := runChecks rest
          (evs ++ r.1, r.2)
      | (evs, false) => (evs, false)

/-- The required flags in the order `main.go` lines 68-73 checks them. -/
def requiredFlags (flags : Flags) : List (String × String) :=
  [("namespace", flags.namespaceFlag),
   ("secret-name", flags.secretName),
   ("region", flags.region),
   ("cluster-name", flags.clusterName),
   ("pod-network-cidr", flags.podNetworkCidr),
   ("target-kubeconfig", flags.targetKubeconfig)]

/-- The `manager.Options` value of `main.go` lines 80-89. -/
def mkManagerOptions (flags : Flags) : ManagerOptions :=
  { leaderElection := flags.leaderElection
    leaderElectionResourceLock := "leases"
    leaderElectionID := leaderElectionId
    leaderElectionNamespace := flags.leaderElectionNamespace
    metricsBindAddress := ":" ++ toString flags.metricsPort
    healthProbeBindAddress := ":" ++ toString flags.healthProbePort }

/-- The part of `main` after the required-flag checks (`main.go` lines
75-143): each external call is attempted in order; any error is logged and
the process exits with status 1; on success the updater is started and the
manager runs on the signal-handler context. -/
def mainBody (flags : Flags) (env : Env) : List Event × Outcome :=
  match env.buildConfigFromFlags flags.targetKubeconfig with
  | .error _ =>
      ([Event.buildTargetConfig flags.targetKubeconfig,
        Event.logError "could not use target kubeconfig"],
       Outcome.exited 1)
  | .ok _ =>
    match env.newManager with
    | .error _ =>
        ([Event.buildTargetConfig flags.targetKubeconfig,
          Event.newManager (mkManagerOptions flags),
          Event.logError "could not create manager"],
         Outcome.exited 1)
    | .ok _ =>
      match env.completeController with
      | .error _ =>
          ([Event.buildTargetConfig flags.targetKubeconfig,
            Event.newManager (mkManagerOptions flags),
            Event.newNodeReconciler,
            Event.newController,
            Event.logError "could not create controller"],
           Outcome.exited 1)
      | .ok _ =>
        match env.addReadyzCheck with
        | .error _ =>
            ([Event.buildTargetConfig flags.targetKubeconfig,
              Event.newManager (mkManagerOptions flags),
              Event.newNodeReconciler,
              Event.newController,
              Event.addReadyzCheck "node reconciler" Checker.readyChecker,
              Event.logError "could not add ready checker"],
             Outcome.exited 1)
        | .ok _ =>
          match env.addHealthzCheck with
          | .error _ =>
              ([Event.buildTargetConfig flags.targetKubeconfig,
                Event.newManager (mkManagerOptions flags),
                Event.newNodeReconciler,
                Event.newController,
                Event.addReadyzCheck "node reconciler" Checker.readyChecker,
                Event.addHealthzCheck "node reconciler" Checker.healthzChecker,
                Event.logError "could not add healthz checker"],
               Outcome.exited 1)
          | .ok _ =>
            match env.loadCredentials with
            | .error _ =>
                ([Event.buildTargetConfig flags.targetKubeconfig,
                  Event.newManager (mkManagerOptions flags),
                  Event.newNodeReconciler,
                  Event.newController,
                  Event.addReadyzCheck "node reconciler" Checker.readyChecker,
                  Event.addHealthzCheck "node reconciler" Checker.healthzChecker,
                  Event.loadCredentials flags.controlKubeconfig flags.namespaceFlag flags.secretName,
                  Event.logError "could not load AWS credentials"],
                 Outcome.exited 1)
            | .ok _ =>
              match env.newAWSEC2Routes with
              | .error _ =>
                  ([Event.buildTargetConfig flags.targetKubeconfig,
                    Event.newManager (mkManagerOptions flags),
                    Event.newNodeReconciler,
                    Event.newController,
                    Event.addReadyzCheck "node reconciler" Checker.readyChecker,
                    Event.addHealthzCheck "node reconciler" Checker.healthzChecker,
                    Event.loadCredentials flags.controlKubeconfig flags.namespaceFlag flags.secretName,
                    Event.newEC2Routes flags.region,
                    Event.logError "could not create AWS EC2 interface"],
                   Outcome.exited 1)
              | .ok _ =>
                match env.getIPv4CIDR (flags.podNetworkCidr.splitOn ",") with
                | .error _ =>
                    ([Event.buildTargetConfig flags.targetKubeconfig,
                      Event.newManager (mkManagerOptions flags),
                      Event.newNodeReconciler,
                      Event.newController,
                      Event.addReadyzCheck "node reconciler" Checker.readyChecker,
                      Event.addHealthzCheck "node reconciler" Checker.healthzChecker,
                      Event.loadCredentials flags.controlKubeconfig flags.namespaceFlag flags.secretName,
                      Event.newEC2Routes flags.region,
                      Event.getIPv4CIDRCall (flags.podNetworkCidr.splitOn ","),
                      Event.logError "could not parse IPv4 address from pod-network-cidr"],
                     Outcome.exited 1)
                | .ok podCIDR =>
                  match env.newCustomRoutes with
                  | .error _ =>
                      ([Event.buildTargetConfig flags.targetKubeconfig,
                        Event.newManager (mkManagerOptions flags),
                        Event.newNodeReconciler,
                        Event.newController,
                        Event.addReadyzCheck "node reconciler" Checker.readyChecker,
                        Event.addHealthzCheck "node reconciler" Checker.healthzChecker,
                        Event.loadCredentials flags.controlKubeconfig flags.namespaceFlag flags.secretName,
                        Event.newEC2Routes flags.region,
                        Event.getIPv4CIDRCall (flags.podNetworkCidr.splitOn ","),
                        Event.newCustomRoutes flags.clusterName podCIDR,
                        Event.logError "could not create AWS custom routes updater"],
                       Outcome.exited 1)
                  | .ok _ =>
                    match env.managerStart with
                    | .error _ =>
                        ([Event.buildTargetConfig flags.targetKubeconfig,
                          Event.newManager (mkManagerOptions flags),
                          Event.newNodeReconciler,
                          Event.newController,
                          Event.addReadyzCheck "node reconciler" Checker.readyChecker,
                          Event.addHealthzCheck "node reconciler" Checker.healthzChecker,
                          Event.loadCredentials flags.controlKubeconfig flags.namespaceFlag flags.secretName,
                          Event.newEC2Routes flags.region,
                          Event.getIPv4CIDRCall (flags.podNetworkCidr.splitOn ","),
                          Event.newCustomRoutes flags.clusterName podCIDR,
                          Event.startUpdater setupSignalHandler
                            (SyncCallback.customRoutesUpdate flags.clusterName podCIDR)
                            flags.tickPeriod flags.syncPeriod flags.maxDelay,
                          Event.managerStart setupSignalHandler,
                          Event.logError "could not start manager"],
                         Outcome.exited 1)
                    | .ok _ =>
                        ([Event.buildTargetConfig flags.targetKubeconfig,
                          Event.newManager (mkManagerOptions flags),
                          Event.newNodeReconciler,
                          Event.newController,
                          Event.addReadyzCheck "node reconciler" Checker.readyChecker,
                          Event.addHealthzCheck "node reconciler" Checker.healthzChecker,
                          Event.loadCredentials flags.controlKubeconfig flags.namespaceFlag flags.secretName,
                          Event.newEC2Routes flags.region,
                          Event.getIPv4CIDRCall (flags.podNetworkCidr.splitOn ","),
                          Event.newCustomRoutes flags.clusterName podCIDR,
                          Event.startUpdater setupSignalHandler
                            (SyncCallback.customRoutesUpdate flags.clusterName podCIDR)
                            flags.tickPeriod flags.syncPeriod flags.maxDelay,
                          Event.managerStart setupSignalHandler],
                         Outcome.completed)

/-- The whole of `main` (`main.go` lines 59-144).  Note the order of the
first two steps: the logger is installed from the flag pointers at line 61,
BEFORE `pflag.Parse` runs at line 67, so it always sees the registered
default level and format. -/
def runMain (args : Args) (env : Env) : List Event × Outcome :=
  let startupEvents : List Event :=
    [Event.setLogger registeredDefaults.logLevel registeredDefaults.logFormat,
     Event.logInfo "version"]
  let flags := pflagParse args
  let checks := runChecks (requiredFlags flags)
  if checks.2 then
    let r := mainBody flags env
    (startupEvents ++ checks.1 ++ r.1, r.2)
  else
    (startupEvents ++ checks.1, Outcome.exited 1)

/-- The full event trace of a run of `mainBody` in which every external
call succeeds and the pod network CIDR parses to `podCIDR`. -/
def successTrace (flags : Flags) (podCIDR : String) : List Event :=
  [Event.buildTargetConfig flags.targetKubeconfig,
   Event.newManager (mkManagerOptions flags),
   Event.newNodeReconciler,
   Event.newController,
   Event.addReadyzCheck "node reconciler" Checker.readyChecker,
   Event.addHealthzCheck "node reconciler" Checker.healthzChecker,
   Event.loadCredentials flags.controlKubeconfig flags.namespaceFlag flags.secretName,
   Event.newEC2Routes flags.region,
   Event.getIPv4CIDRCall (flags.podNetworkCidr.splitOn ","),
   Event.newCustomRoutes flags.clusterName podCIDR,
   Event.startUpdater setupSignalHandler
     (SyncCallback.customRoutesUpdate flags.clusterName podCIDR)
     flags.tickPeriod flags.syncPeriod flags.maxDelay,
   Event.managerStart setupSignalHandler]

/-- All external calls of `mainBody` succeed and the pod network CIDR list
parses to `podCIDR`. -/
def envAllOk (env : Env) (flags : Flags) (podCIDR : String) : Prop :=
  env.buildConfigFromFlags flags.targetKubeconfig = Except.ok () ∧
  env.newManager = Except.ok () ∧
  env.completeController = Except.ok () ∧
  env.addReadyzCheck = Except.ok () ∧
  env.addHealthzCheck = Except.ok () ∧
  env.loadCredentials = Except.ok () ∧
  env.newAWSEC2Routes = Except.ok () ∧
  env.getIPv4CIDR (flags.podNetworkCidr.splitOn ",") = Except.ok podCIDR ∧
  env.newCustomRoutes = Except.ok () ∧
  env.managerStart = Except.ok ()

/-- A sample environment in which every external call succeeds. -/
def sampleEnv : Env :=
  { buildConfigFromFlags := fun _ => Except.ok ()
    newManager := Except.ok ()
    completeController := Except.ok ()
    addReadyzCheck := Except.ok ()
    addHealthzCheck := Except.ok ()
    loadCredentials := Except.ok ()
    newAWSEC2Routes := Except.ok ()
    getIPv4CIDR := fun _ => Except.ok "100.96.0.0/11"
    newCustomRoutes := Except.ok ()
    managerStart := Except.ok () }

/-- A sample environment in which the pod network CIDR does not parse. -/
def badCidrEnv : Env :=
  { sampleEnv with getIPv4CIDR := fun _ => Except.error "invalid CIDR address" }

/-- A sample command line supplying every required flag. -/
def sampleArgs : Args :=
  { clusterName := some "shoot--foo--bar"
    namespaceFlag := some "shoot--foo--bar"
    podNetworkCidr := some "100.96.0.0/11"
    region := some "eu-west-1"
    secretName := some "cloudprovider"
    targetKubeconfig := some "/var/run/kubeconfig" }

/-- A sample command line supplying every required flag together with a
non-default log level and format. -/
def c2Args : Args :=
  { sampleArgs with logLevel := some "debug", logFormat := some "text" }

lemma lastIsErrorReport_append (l₁ l₂ : List Event) (h : l₂ ≠ []) :
    lastIsErrorReport (l₁ ++ l₂) = lastIsErrorReport l₂ := by
  induction l₁ with
  | nil => rfl
  | cons a t ih =>
      rcases ht : t ++ l₂ with _ | ⟨b, u⟩
      · rcases l₂ with _ | _
        · exact absurd rfl h
        · exact absurd ht (by simp)
      · have h2 : lastIsErrorReport (a :: (t ++ l₂)) = lastIsErrorReport (t ++ l₂) := by
          rw [ht]; rfl
        rw [List.cons_append, h2, ih]

lemma runChecks_true_nil (l : List (String × String))
    (h : (runChecks l).2 = true) : (runChecks l).1 = [] := by
  induction l with
  | nil => rfl
  | cons p rest ih =>
      obtain ⟨n, v⟩ := p
      by_cases hv : v = ""
      · simp [runChecks, checkRequiredFlag, hv] at h
      · simp [runChecks, checkRequiredFlag, hv] at h ⊢
        exact ih h

lemma runChecks_fail (l : List (String × String)) (h : ∃ p ∈ l, p.2 = "") :
    (runChecks l).2 = false ∧
    lastIsErrorReport (runChecks l).1 = true ∧
    Event.usage ∈ (runChecks l).1 ∧
    ∀ e ∈ (runChecks l).1, e.isExternalAction = false := by
  induction l with
  | nil => simp at h
  | cons p rest ih =>
      obtain ⟨n, v⟩ := p
      by_cases hv : v = ""
      · simp [runChecks, checkRequiredFlag, hv, lastIsErrorReport,
              Event.isErrorReport, Event.isExternalAction]
      · have hrest : ∃ p ∈ rest, p.2 = "" := by
          rcases h with ⟨q, hq, hq2⟩
          rcases List.mem_cons.mp hq with h1 | h1
          · subst h1
            exact absurd hq2 hv
          · exact ⟨q, h1, hq2⟩
        have := ih hrest
        simpa [runChecks, checkRequiredFlag, hv] using this

lemma runChecks_false_last (l : List (String × String))
    (h : (runChecks l).2 = false) :
    lastIsErrorReport (runChecks l).1 = true ∧ (runChecks l).1 ≠ [] := by
  induction l with
  | nil => simp [runChecks] at h
  | cons p rest ih =>
      obtain ⟨n, v⟩ := p
      by_cases hv : v = ""
      · simp [runChecks, checkRequiredFlag, hv, lastIsErrorReport, Event.isErrorReport]
      · simp [runChecks, checkRequiredFlag, hv] at h ⊢
        exact ih h

lemma runMain_checksFail (args : Args) (env : Env)
    (h : (runChecks (requiredFlags (pflagParse args))).2 = false) :
    runMain args env =
      ([Event.setLogger infoLevel formatJSON, Event.logInfo "version"] ++
         (runChecks (requiredFlags (pflagParse args))).1,
       Outcome.exited 1) := by
  simp [runMain, h, registeredDefaults]

lemma runMain_checksPass (args : Args) (env : Env)
    (h : (runChecks (requiredFlags (pflagParse args))).2 = true) :
    runMain args env =
      ([Event.setLogger infoLevel formatJSON, Event.logInfo "version"] ++
         (mainBody (pflagParse args) env).1,
       (mainBody (pflagParse args) env).2) := by
  simp [runMain, h, runChecks_true_nil _ h, registeredDefaults]

lemma mainBody_success (flags : Flags) (env : Env) (podCIDR : String)
    (henv : envAllOk env flags podCIDR) :
    mainBody flags env = (successTrace flags podCIDR, Outcome.completed) := by
  obtain ⟨h1, h2, h3, h4, h5, h6, h7, h8, h9, h10⟩ := henv
  simp [mainBody, successTrace, h1, h2, h3, h4, h5, h6, h7, h8, h9, h10]

lemma runMain_success (args : Args) (env : Env) (podCIDR : String)
    (hchecks : (runChecks (requiredFlags (pflagParse args))).2 = true)
    (henv : envAllOk env (pflagParse args) podCIDR) :
    runMain args env =
      ([Event.setLogger infoLevel formatJSON, Event.logInfo "version"] ++
         successTrace (pflagParse args) podCIDR,
       Outcome.completed) := by
  rw [runMain_checksPass args env hchecks, mainBody_success _ _ _ henv]

lemma mainBody_exit (flags : Flags) (env : Env) (c : Nat)
    (h : (mainBody flags env).2 = Outcome.exited c) :
    c = 1 ∧ lastIsErrorReport (mainBody flags env).1 = true := by
  cases h1 : env.buildConfigFromFlags flags.targetKubeconfig with
  | error e =>
      simp [mainBody, h1] at h ⊢
      simp [lastIsErrorReport, Event.isErrorReport, h.symm]
  | ok u =>
  cases h2 : env.newManager with
  | error e =>
      simp [mainBody, h1, h2] at h ⊢
      simp [lastIsErrorReport, Event.isErrorReport, h.symm]
  | ok u2 =>
  cases h3 : env.completeController with
  | error e =>
      simp [mainBody, h1, h2, h3] at h ⊢
      simp [lastIsErrorReport, Event.isErrorReport, h.symm]
  | ok u3 =>
  cases h4 : env.addReadyzCheck with
  | error e =>
      simp [mainBody, h1, h2, h3, h4] at h ⊢
      simp [lastIsErrorReport, Event.isErrorReport, h.symm]
  | ok u4 =>
  cases h5 : env.addHealthzCheck with
  | error e =>
      simp [mainBody, h1, h2, h3, h4, h5] at h ⊢
      simp [lastIsErrorReport, Event.isErrorReport, h.symm]
  | ok u5 =>
  cases h6 : env.loadCredentials with
  | error e =>
      simp [mainBody, h1, h2, h3, h4, h5, h6] at h ⊢
      simp [lastIsErrorReport, Event.isErrorReport, h.symm]
  | ok u6 =>
  cases h7 : env.newAWSEC2Routes with
  | error e =>
      simp [mainBody, h1, h2, h3, h4, h5, h6, h7] at h ⊢
      simp [lastIsErrorReport, Event.isErrorReport, h.symm]
  | ok u7 =>
  cases h8 : env.getIPv4CIDR (flags.podNetworkCidr.splitOn ",") with
  | error e =>
      simp [mainBody, h1, h2, h3, h4, h5, h6, h7, h8] at h ⊢
      simp [lastIsErrorReport, Event.isErrorReport, h.symm]
  | ok podCIDR =>
  cases h9 : env.newCustomRoutes with
  | error e =>
      simp [mainBody, h1, h2, h3, h4, h5, h6, h7, h8, h9] at h ⊢
      simp [lastIsErrorReport, Event.isErrorReport, h.symm]
  | ok u9 =>
  cases h10 : env.managerStart with
  | error e =>
      simp [mainBody, h1, h2, h3, h4, h5, h6, h7, h8, h9, h10] at h ⊢
      simp [lastIsErrorReport, Event.isErrorReport, h.symm]
  | ok u10 =>
      simp [mainBody, h1, h2, h3, h4, h5, h6, h7, h8, h9, h10] at h

/-- C1: for every execution in which any of the required string flags
(cluster-name, namespace, secret-name, region, pod-network-cidr,
target-kubeconfig) is the empty string after flag parsing, the process
prints a usage message and exits with a non-zero status before building
any client or contacting any external system. -/
theorem C1_required_flag_empty_exits_before_external (args : Args) (env : Env)
    (h : (pflagParse args).namespaceFlag = "" ∨ (pflagParse args).secretName = "" ∨
         (pflagParse args).region = "" ∨ (pflagParse args).clusterName = "" ∨
         (pflagParse args).podNetworkCidr = "" ∨ (pflagParse args).targetKubeconfig = "") :
    (runMain args env).2 = Outcome.exited 1 ∧
    Event.usage ∈ (runMain args env).1 ∧
    ∀ e ∈ (runMain args env).1, e.isExternalAction = false := by
  have hmem : ∃ p ∈ requiredFlags (pflagParse args), p.2 = "" := by
    rcases h with h | h | h | h | h | h
    · exact ⟨("namespace", (pflagParse args).namespaceFlag), by simp [requiredFlags], h⟩
    · exact ⟨("secret-name", (pflagParse args).secretName), by simp [requiredFlags], h⟩
    · exact ⟨("region", (pflagParse args).region), by simp [requiredFlags], h⟩
    · exact ⟨("cluster-name", (pflagParse args).clusterName), by simp [requiredFlags], h⟩
    · exact ⟨("pod-network-cidr", (pflagParse args).podNetworkCidr), by simp [requiredFlags], h⟩
    · exact ⟨("target-kubeconfig", (pflagParse args).targetKubeconfig), by simp [requiredFlags], h⟩
  obtain ⟨hfalse, _, husage, hext⟩ := runChecks_fail _ hmem
  rw [runMain_checksFail args env hfalse]
  refine ⟨rfl, ?_, ?_⟩
  · exact List.mem_append_right _ husage
  · intro e he
    rcases List.mem_append.mp he with he | he
    · simp only [List.mem_cons, List.not_mem_nil, or_false] at he
      rcases he with rfl | rfl <;> rfl
    · exact hext e he

/-- C1 witness: with an empty command line every required flag is empty,
and the run exits with status 1 after printing usage, with no external
action in the trace. -/
theorem C1_witness :
    (runMain {} sampleEnv).2 = Outcome.exited 1 ∧
    Event.usage ∈ (runMain {} sampleEnv).1 ∧
    ∀ e ∈ (runMain {} sampleEnv).1, e.isExternalAction = false :=
  C1_required_flag_empty_exits_before_external {} sampleEnv (Or.inl rfl)

/-- C3: when the pod-network-cidr flag value cannot be parsed as an IPv4
CIDR range, startup is fatal: the process logs the error and exits with
status 1, and the route updater is never started. -/
theorem C3_unparsable_cidr_fatal (args : Args) (env : Env) (msg : String)
    (hchecks : (runChecks (requiredFlags (pflagParse args))).2 = true)
    (h1 : env.buildConfigFromFlags (pflagParse args).targetKubeconfig = Except.ok ())
    (h2 : env.newManager = Except.ok ())
    (h3 : env.completeController = Except.ok ())
    (h4 : env.addReadyzCheck = Except.ok ())
    (h5 : env.addHealthzCheck = Except.ok ())
    (h6 : env.loadCredentials = Except.ok ())
    (h7 : env.newAWSEC2Routes = Except.ok ())
    (h8 : env.getIPv4CIDR ((pflagParse args).podNetworkCidr.splitOn ",") = Except.error msg) :
    (runMain args env).2 = Outcome.exited 1 ∧
    Event.logError "could not parse IPv4 address from pod-network-cidr" ∈ (runMain args env).1 ∧
    ∀ ctx cb t s m, Event.startUpdater ctx cb t s m ∉ (runMain args env).1 := by
  rw [runMain_checksPass args env hchecks]
  refine ⟨?_, ?_, ?_⟩ <;>
    simp [mainBody, h1, h2, h3, h4, h5, h6, h7, h8]

/-- C3 witness: with every required flag supplied and an environment whose
CIDR parser rejects the input, the run exits with status 1, logs the parse
error, and never starts the updater. -/
theorem C3_witness :
    (runMain sampleArgs badCidrEnv).2 = Outcome.exited 1 ∧
    Event.logError "could not parse IPv4 address from pod-network-cidr" ∈
      (runMain sampleArgs badCidrEnv).1 ∧
    ∀ ctx cb t s m, Event.startUpdater ctx cb t s m ∉ (runMain sampleArgs badCidrEnv).1 :=
  C3_unparsable_cidr_fatal sampleArgs badCidrEnv "invalid CIDR address"
    (by decide) rfl rfl rfl rfl rfl rfl rfl rfl

/-- C4: `StartUpdater` is given a single sync callback
(`customRoutes.Update`) together with the tick-period flag (default 5
seconds), the sync-period flag (default 1 hour) and the
max-delay-on-failure backoff cap (default 5 minutes), so the tick cadence
and the full-sync cadence drive one and the same update function and
differ only in trigger period. -/
theorem C4_single_callback_both_cadences (args : Args) (env : Env) (podCIDR : String)
    (hchecks : (runChecks (requiredFlags (pflagParse args))).2 = true)
    (henv : envAllOk env (pflagParse args) podCIDR) :
    Event.startUpdater Ctx.signalDerived
        (SyncCallback.customRoutesUpdate (pflagParse args).clusterName podCIDR)
        (pflagParse args).tickPeriod (pflagParse args).syncPeriod (pflagParse args).maxDelay
      ∈ (runMain args env).1 ∧
    (∀ ctx cb t s m, Event.startUpdater ctx cb t s m ∈ (runMain args env).1 →
       ctx = Ctx.signalDerived ∧
       cb = SyncCallback.customRoutesUpdate (pflagParse args).clusterName podCIDR ∧
       t = (pflagParse args).tickPeriod ∧ s = (pflagParse args).syncPeriod ∧
       m = (pflagParse args).maxDelay) ∧
    (args.tickPeriod = none → (pflagParse args).tickPeriod = 5 * nsPerSecond) ∧
    (args.syncPeriod = none → (pflagParse args).syncPeriod = 1 * nsPerHour) ∧
    (args.maxDelay = none → (pflagParse args).maxDelay = 5 * nsPerMinute) := by
  rw [runMain_success args env podCIDR hchecks henv]
  refine ⟨?_, ?_, ?_, ?_, ?_⟩
  · simp [successTrace, setupSignalHandler]
  · intro ctx cb t s m hmem
    simp [successTrace, setupSignalHandler] at hmem
    exact ⟨hmem.1, hmem.2.1, hmem.2.2.1, hmem.2.2.2.1, hmem.2.2.2.2⟩
  · intro h; simp [pflagParse, h, registeredDefaults]
  · intro h; simp [pflagParse, h, registeredDefaults]
  · intro h; simp [pflagParse, h, registeredDefaults]

/-- C4 witness: with every required flag supplied, none of the three
period flags supplied, and an all-success environment, the updater is
started with the single callback and the default periods. -/
theorem C4_witness :
    Event.startUpdater Ctx.signalDerived
        (SyncCallback.customRoutesUpdate (pflagParse sampleArgs).clusterName "100.96.0.0/11")
        (pflagParse sampleArgs).tickPeriod (pflagParse sampleArgs).syncPeriod
        (pflagParse sampleArgs).maxDelay
      ∈ (runMain sampleArgs sampleEnv).1 ∧
    (∀ ctx cb t s m, Event.startUpdater ctx cb t s m ∈ (runMain sampleArgs sampleEnv).1 →
       ctx = Ctx.signalDerived ∧
       cb = SyncCallback.customRoutesUpdate (pflagParse sampleArgs).clusterName "100.96.0.0/11" ∧
       t = (pflagParse sampleArgs).tickPeriod ∧ s = (pflagParse sampleArgs).syncPeriod ∧
       m = (pflagParse sampleArgs).maxDelay) ∧
    (sampleArgs.tickPeriod = none → (pflagParse sampleArgs).tickPeriod = 5 * nsPerSecond) ∧
    (sampleArgs.syncPeriod = none → (pflagParse sampleArgs).syncPeriod = 1 * nsPerHour) ∧
    (sampleArgs.maxDelay = none → (pflagParse sampleArgs).maxDelay = 5 * nsPerMinute) :=
  C4_single_callback_both_cadences sampleArgs sampleEnv "100.96.0.0/11" (by decide)
    ⟨rfl, rfl, rfl, rfl, rfl, rfl, rfl, rfl, rfl, rfl⟩

/-- C5: the updater loop and the controller manager are both started with
the one context returned by the signal handler, which is cancelled by the
process-shutdown signal; neither runs on a context that survives process
shutdown. -/
theorem C5_shared_shutdown_context (args : Args) (env : Env) (podCIDR : String)
    (hchecks : (runChecks (requiredFlags (pflagParse args))).2 = true)
    (henv : envAllOk env (pflagParse args) podCIDR) :
    (∃ cb t s m, Event.startUpdater Ctx.signalDerived cb t s m ∈ (runMain args env).1) ∧
    Event.managerStart Ctx.signalDerived ∈ (runMain args env).1 ∧
    (∀ ctx cb t s m, Event.startUpdater ctx cb t s m ∈ (runMain args env).1 →
       ∀ ctx2, Event.managerStart ctx2 ∈ (runMain args env).1 → ctx = ctx2) ∧
    (∀ ctx cb t s m, Event.startUpdater ctx cb t s m ∈ (runMain args env).1 →
       ctx.cancelledOnShutdownSignal = true) ∧
    (∀ ctx, Event.managerStart ctx ∈ (runMain args env).1 →
       ctx.cancelledOnShutdownSignal = true) := by
  rw [runMain_success args env podCIDR hchecks henv]
  refine ⟨?_, ?_, ?_, ?_, ?_⟩
  · exact ⟨SyncCallback.customRoutesUpdate (pflagParse args).clusterName podCIDR,
      (pflagParse args).tickPeriod, (pflagParse args).syncPeriod, (pflagParse args).maxDelay,
      by simp [successTrace, setupSignalHandler]⟩
  · simp [successTrace, setupSignalHandler]
  · intro ctx cb t s m hmem ctx2 hmem2
    simp [successTrace, setupSignalHandler] at hmem hmem2
    rw [hmem.1, hmem2]
  · intro ctx cb t s m hmem
    simp [successTrace, setupSignalHandler] at hmem
    rw [hmem.1]
    rfl
  · intro ctx hmem
    simp [successTrace, setupSignalHandler] at hmem
    rw [hmem]
    rfl

/-- C5 witness: with every required flag supplied and an all-success
environment, the updater and the manager are both started on the
signal-handler context. -/
theorem C5_witness :
    (∃ cb t s m, Event.startUpdater Ctx.signalDerived cb t s m ∈
       (runMain sampleArgs sampleEnv).1) ∧
    Event.managerStart Ctx.signalDerived ∈ (runMain sampleArgs sampleEnv).1 ∧
    (∀ ctx cb t s m, Event.startUpdater ctx cb t s m ∈ (runMain sampleArgs sampleEnv).1 →
       ∀ ctx2, Event.managerStart ctx2 ∈ (runMain sampleArgs sampleEnv).1 → ctx = ctx2) ∧
    (∀ ctx cb t s m, Event.startUpdater ctx cb t s m ∈ (runMain sampleArgs sampleEnv).1 →
       ctx.cancelledOnShutdownSignal = true) ∧
    (∀ ctx, Event.managerStart ctx ∈ (runMain sampleArgs sampleEnv).1 →
       ctx.cancelledOnShutdownSignal = true) :=
  C5_shared_shutdown_context sampleArgs sampleEnv "100.96.0.0/11" (by decide)
    ⟨rfl, rfl, rfl, rfl, rfl, rfl, rfl, rfl, rfl, rfl⟩

/-- C6: the readiness endpoint is driven by the node reconciler's ready
checker and the health endpoint by its healthz checker, both registered on
the manager, whose options bind the health probes to the health-probe port
and metrics to the metrics port. -/
theorem C6_endpoints_wired_to_reconciler (args : Args) (env : Env) (podCIDR : String)
    (hchecks : (runChecks (requiredFlags (pflagParse args))).2 = true)
    (henv : envAllOk env (pflagParse args) podCIDR) :
    Event.newManager (mkManagerOptions (pflagParse args)) ∈ (runMain args env).1 ∧
    (mkManagerOptions (pflagParse args)).healthProbeBindAddress =
      ":" ++ toString (pflagParse args).healthProbePort ∧
    (mkManagerOptions (pflagParse args)).metricsBindAddress =
      ":" ++ toString (pflagParse args).metricsPort ∧
    Event.addReadyzCheck "node reconciler" Checker.readyChecker ∈ (runMain args env).1 ∧
    Event.addHealthzCheck "node reconciler" Checker.healthzChecker ∈ (runMain args env).1 := by
  rw [runMain_success args env podCIDR hchecks henv]
  refine ⟨?_, rfl, rfl, ?_, ?_⟩ <;> simp [successTrace]

/-- C6 witness: with every required flag supplied and an all-success
environment, the checks are registered and the ports appear in the manager
options. -/
theorem C6_witness :
    Event.newManager (mkManagerOptions (pflagParse sampleArgs)) ∈
      (runMain sampleArgs sampleEnv).1 ∧
    (mkManagerOptions (pflagParse sampleArgs)).healthProbeBindAddress =
      ":" ++ toString (pflagParse sampleArgs).healthProbePort ∧
    (mkManagerOptions (pflagParse sampleArgs)).metricsBindAddress =
      ":" ++ toString (pflagParse sampleArgs).metricsPort ∧
    Event.addReadyzCheck "node reconciler" Checker.readyChecker ∈
      (runMain sampleArgs sampleEnv).1 ∧
    Event.addHealthzCheck "node reconciler" Checker.healthzChecker ∈
      (runMain sampleArgs sampleEnv).1 :=
  C6_endpoints_wired_to_reconciler sampleArgs sampleEnv "100.96.0.0/11" (by decide)
    ⟨rfl, rfl, rfl, rfl, rfl, rfl, rfl, rfl, rfl, rfl⟩

/-- C7: the pod-network-cidr flag value is split on every comma, the
resulting list is the argument of the IPv4 CIDR parse, and the parsed
range is the one handed to the route updater (via the custom routes and
the updater callback). -/
theorem C7_cidr_split_parse_handoff (args : Args) (env : Env) (podCIDR : String)
    (hchecks : (runChecks (requiredFlags (pflagParse args))).2 = true)
    (henv : envAllOk env (pflagParse args) podCIDR) :
    Event.getIPv4CIDRCall ((pflagParse args).podNetworkCidr.splitOn ",") ∈
      (runMain args env).1 ∧
    (∀ l, Event.getIPv4CIDRCall l ∈ (runMain args env).1 →
       l = (pflagParse args).podNetworkCidr.splitOn ",") ∧
    Event.newCustomRoutes (pflagParse args).clusterName podCIDR ∈ (runMain args env).1 ∧
    (∀ ctx cb t s m, Event.startUpdater ctx cb t s m ∈ (runMain args env).1 →
       cb = SyncCallback.customRoutesUpdate (pflagParse args).clusterName podCIDR) := by
  rw [runMain_success args env podCIDR hchecks henv]
  refine ⟨?_, ?_, ?_, ?_⟩
  · simp [successTrace]
  · intro l hmem
    simp [successTrace] at hmem
    exact hmem
  · simp [successTrace]
  · intro ctx cb t s m hmem
    simp [successTrace, setupSignalHandler] at hmem
    exact hmem.2.1

/-- C7 witness: with every required flag supplied and an all-success
environment whose parser returns the sample range, the call and the
handoff are in the trace. -/
theorem C7_witness :
    Event.getIPv4CIDRCall ((pflagParse sampleArgs).podNetworkCidr.splitOn ",") ∈
      (runMain sampleArgs sampleEnv).1 ∧
    (∀ l, Event.getIPv4CIDRCall l ∈ (runMain sampleArgs sampleEnv).1 →
       l = (pflagParse sampleArgs).podNetworkCidr.splitOn ",") ∧
    Event.newCustomRoutes (pflagParse sampleArgs).clusterName "100.96.0.0/11" ∈
      (runMain sampleArgs sampleEnv).1 ∧
    (∀ ctx cb t s m, Event.startUpdater ctx cb t s m ∈ (runMain sampleArgs sampleEnv).1 →
       cb = SyncCallback.customRoutesUpdate (pflagParse sampleArgs).clusterName "100.96.0.0/11") :=
  C7_cidr_split_parse_handoff sampleArgs sampleEnv "100.96.0.0/11" (by decide)
    ⟨rfl, rfl, rfl, rfl, rfl, rfl, rfl, rfl, rfl, rfl⟩

/-- C8: secret-name is checked as a required flag, but its registered
default is the non-empty string "cloudprovider": when the flag is omitted
the check passes, and the parsed value is empty exactly when the user
explicitly passes an empty value. -/
theorem C8_secret_name_default_nonempty :
    registeredDefaults.secretName = "cloudprovider" ∧
    (∀ args : Args, args.secretName = none →
       (pflagParse args).secretName = "cloudprovider" ∧
       checkRequiredFlag "secret-name" (pflagParse args).secretName = ([], true)) ∧
    (∀ args : Args, ((pflagParse args).secretName = "" ↔ args.secretName = some "")) := by
  refine ⟨rfl, ?_, ?_⟩
  · intro args h
    simp [pflagParse, h, registeredDefaults, checkRequiredFlag]
  · intro args
    cases h : args.secretName with
    | none => simp [pflagParse, h, registeredDefaults]
    | some s => simp [pflagParse, h, registeredDefaults]

/-- C8 witness: with an empty command line the parsed secret name is the
default "cloudprovider" and the required-flag check passes for it. -/
theorem C8_witness :
    (pflagParse {}).secretName = "cloudprovider" ∧
    checkRequiredFlag "secret-name" (pflagParse {}).secretName = ([], true) :=
  C8_secret_name_default_nonempty.2.1 {} rfl

/-- C9: leader election is disabled by default: when the leader-election
flag is not supplied the manager options carry LeaderElection = false,
with the lease name "aws-custom-route-controller-leader-election" and,
when the leader-election-namespace flag is not supplied, namespace
"kube-system". -/
theorem C9_leader_election_default_off (args : Args)
    (h : args.leaderElection = none) :
    (mkManagerOptions (pflagParse args)).leaderElection = false ∧
    (mkManagerOptions (pflagParse args)).leaderElectionID =
      "aws-custom-route-controller-leader-election" ∧
    (args.leaderElectionNamespace = none →
      (mkManagerOptions (pflagParse args)).leaderElectionNamespace = "kube-system") := by
  refine ⟨?_, rfl, ?_⟩
  · simp [mkManagerOptions, pflagParse, h, registeredDefaults]
  · intro h2
    simp [mkManagerOptions, pflagParse, h2, registeredDefaults]

/-- C9 witness: with an empty command line, leader election is off, the
lease name is the fixed identifier and the lease namespace is
kube-system. -/
theorem C9_witness :
    (mkManagerOptions (pflagParse {})).leaderElection = false ∧
    (mkManagerOptions (pflagParse {})).leaderElectionID =
      "aws-custom-route-controller-leader-election" ∧
    ((({} : Args)).leaderElectionNamespace = none →
      (mkManagerOptions (pflagParse {})).leaderElectionNamespace = "kube-system") :=
  C9_leader_election_default_off {} rfl

/-- C10: every fatal startup error path terminates the process with exit
status exactly 1, and the last event of the trace reports the failure (a
usage message for a missing required flag, an error log line otherwise). -/
theorem C10_fatal_paths_exit_status_one (args : Args) (env : Env) (c : Nat)
    (h : (runMain args env).2 = Outcome.exited c) :
    c = 1 ∧ lastIsErrorReport (runMain args env).1 = true := by
  by_cases hc : (runChecks (requiredFlags (pflagParse args))).2 = true
  · rw [runMain_checksPass args env hc] at h ⊢
    simp only at h
    obtain ⟨h1, h2⟩ := mainBody_exit _ _ _ h
    refine ⟨h1, ?_⟩
    simp only []
    rw [lastIsErrorReport_append]
    · exact h2
    · intro hnil
      rw [hnil] at h2
      simp [lastIsErrorReport] at h2
  · have hfalse : (runChecks (requiredFlags (pflagParse args))).2 = false := by
      revert hc
      cases (runChecks (requiredFlags (pflagParse args))).2 <;> simp
    obtain ⟨hlast, hne⟩ := runChecks_false_last _ hfalse
    rw [runMain_checksFail args env hfalse] at h ⊢
    simp only [Outcome.exited.injEq] at h
    refine ⟨h.symm, ?_⟩
    simp only []
    rw [lastIsErrorReport_append _ _ hne]
    exact hlast

/-- C10 witness: with an empty command line the run exits with status 1
and the trace ends in a failure report. -/
theorem C10_witness :
    (1 : Nat) = 1 ∧ lastIsErrorReport (runMain {} sampleEnv).1 = true :=
  C10_fatal_paths_exit_status_one {} sampleEnv 1 (by decide)

/-- C2 (counter-evidence): `main.go` installs the logger at line 61, before
`pflag.Parse` runs at line 67, so even when the command line supplies
log-level debug and log-format text, the installed logger is configured
with the registered defaults info and json; the flags are parsed but never
reach the logger. -/
theorem C2_logger_built_before_flag_parse :
    (pflagParse c2Args).logLevel = "debug" ∧
    (pflagParse c2Args).logFormat = "text" ∧
    (runMain c2Args sampleEnv).1.head? = some (Event.setLogger "info" "json") ∧
    ∀ l f, Event.setLogger l f ∈ (runMain c2Args sampleEnv).1 →
      l = "info" ∧ f = "json" := by
  have hrun := runMain_success c2Args sampleEnv "100.96.0.0/11" (by decide)
    ⟨rfl, rfl, rfl, rfl, rfl, rfl, rfl, rfl, rfl, rfl⟩
  refine ⟨rfl, rfl, ?_, ?_⟩
  · rw [hrun]
    rfl
  · intro l f hmem
    rw [hrun] at hmem
    simp [successTrace, infoLevel, formatJSON] at hmem
    exact hmem

end ACRC
